import Mathlib

/-!
Shallow embedding of `sleep_ema_demo.py` (Automated Sleep-Deviation Triggered
EMA pipeline).  Numbers are modelled as exact rationals; Python exceptions are
modelled with `Except`; Python truthiness of the trigger expression is modelled
explicitly with `PyVal`.  External collaborators (configuration file, Oura HTTP API,
bundled sample file, Qualtrics HTTP API) are modelled as parameters: the sample
dataset, the live records the provider would return for a token, and the
configured Qualtrics api token.
-/

namespace SleepEMA

/-- Placeholder string meaning "not set" (`DUMMY = "xxx"` in the source). -/
def DUMMY : String := "xxx"

/-- Python `pre.startswith(s)`-style check, modelled on the character lists of
the two strings (`str.startswith` compares leading characters). -/
def startswith (pre s : String) : Bool := pre.data.isPrefixOf s.data

/-- A Python value as produced by the trigger expression on line 92 of the
source: either a `bool` (from a comparison) or a number (`pct_change`). -/
inductive PyVal
  | bool (b : Bool)
  | num (q : ℚ)
  deriving DecidableEq

/-- Python truthiness: `False`/`0` are falsy, `True` and nonzero numbers are
truthy. -/
def truthy : PyVal → Bool
  | PyVal.bool b => b
  | PyVal.num q => decide (q ≠ 0)

/-- Python `or`: returns the first operand when it is truthy, otherwise the
second operand (short-circuit, value-returning). -/
def pyOr (a b : PyVal) : PyVal := if truthy a then a else b

/-- Python `and`: returns the second operand when the first is truthy,
otherwise the first operand (short-circuit, value-returning). -/
def pyAnd (a b : PyVal) : PyVal := if truthy a then b else a

/-- The exceptions the per-patient pipeline can raise: `IndexError` from
`hours[-1]` on an empty list (line 168), `StatisticsError` from
`stats.mean([])` (line 170), `ValueError` from `should_trigger` on fewer than
8 nights (line 89), and `KeyError` from `d["day"]` while sorting live
provider data (line 69). -/
inductive PipeErr
  | indexError
  | statisticsError
  | insufficientData
  | keyError
  deriving DecidableEq

/-- A raw provider record: `dict day type total_sleep_duration` models a JSON
object whose relevant fields may each be absent, `nonDict` models any
non-mapping value in the data array. -/
inductive RawRec
  | dict (day : Option Nat) (type : Option String) (total_sleep_duration : Option ℚ)
  | nonDict
  deriving DecidableEq

/-- The filter condition of `nightly_totals` (source lines 74-79):
`isinstance(rec, dict) and rec.get("type") == "long_sleep" and
"total_sleep_duration" in rec`. -/
def isQualifying : RawRec → Bool
  | RawRec.dict _ ty dur => decide (ty = some "long_sleep") && dur.isSome
  | RawRec.nonDict => false

/-- The mapped value `rec["total_sleep_duration"] / 3600` (source line 80).
The defaults for the non-dict / missing-field cases are unreachable: the
function is only applied to records that pass `isQualifying`. -/
def hoursOf : RawRec → ℚ
  | RawRec.dict _ _ dur => dur.getD 0 / 3600
  | RawRec.nonDict => 0

/-- Python slice `l[-n:]`: the last `n` elements (all of them when the list is
shorter than `n`). -/
def lastN (n : Nat) (l : List α) : List α := l.drop (l.length - n)

/-- `nightly_totals` (source lines 72-80): filter to qualifying records, map
seconds to hours, keep the last 8. -/
def nightly_totals (records : List RawRec) : List ℚ :=
  lastN 8 ((records.filter isQualifying).map hoursOf)

/-- Modelled from the specification wording of claim C7: the values obtained
by keeping, in input order, the records that are structured mappings with
`type == "long_sleep"` and a present `total_sleep_duration` field, and
dividing each such duration by 3600. -/
def keptHours (records : List RawRec) : List ℚ :=
  records.filterMap fun rec =>
    match rec with
    | RawRec.dict _ (some t) (some d) => if t = "long_sleep" then some (d / 3600) else none
    | _ => none

/-- `stats.mean` on a list of rationals (used only on nonempty lists; the
empty case is diverted to `PipeErr.statisticsError` by the callers that can
reach it). -/
def mean (l : List ℚ) : ℚ := l.sum / l.length

/-- `pct_change` exactly as computed on source line 91:
`abs(last - baseline) / baseline * 100 if baseline else 0`; the Python guard
is truthiness of `baseline`, i.e. `baseline ≠ 0`. -/
def pct_change (last baseline : ℚ) : ℚ :=
  if baseline ≠ 0 then |last - baseline| / baseline * 100 else 0

/-- Modelled from the specification wording of claim C6: the formula is used
only when the baseline is strictly positive, and the result is 0 otherwise. -/
def pct_change_spec (last baseline : ℚ) : ℚ :=
  if 0 < baseline then |last - baseline| / baseline * 100 else 0

/-- Python `hours[-1]` for a nonempty list (0 is an unreachable default: every
use is guarded by a nonemptiness check). -/
def lastOf : List ℚ → ℚ
  | [] => 0
  | [x] => x
  | _ :: x :: xs => lastOf (x :: xs)

/-- `stats.mean(hours[:-1])` as in source lines 90 and 170. -/
def baselineOf (hours : List ℚ) : ℚ := mean hours.dropLast

/-- The `pct_change` value computed by `should_trigger` (source line 91). -/
def pctOf (hours : List ℚ) : ℚ := pct_change (lastOf hours) (baselineOf hours)

/-- `should_trigger` (source lines 87-92).  The returned Python value of line
92 is `last < min_hours or (pct_change > deviation_pct and pct_change)`:
Python operator precedence puts `and` before `or`, and `and`/`or` return one
of their operands, so the result is a bool or a number. -/
def should_trigger (hours : List ℚ) (deviation_pct min_hours : ℚ) :
    Except PipeErr PyVal :=
  if hours.length < 8 then Except.error PipeErr.insufficientData
  else
    Except.ok (pyOr (PyVal.bool (decide (lastOf hours < min_hours)))
      (pyAnd (PyVal.bool (decide (pctOf hours > deviation_pct)))
        (PyVal.num (pctOf hours))))

/-- The boolean decision actually used by the caller
(`if should_trigger(...)`, source line 174): Python truthiness of the value
returned by `should_trigger`. -/
def trigger_decision (hours : List ℚ) (deviation_pct min_hours : ℚ) :
    Except PipeErr Bool :=
  (should_trigger hours deviation_pct min_hours).map truthy

/-- The sort key lookup `d["day"]` (source line 69). -/
def dayOf : RawRec → Option Nat
  | RawRec.dict d _ _ => d
  | RawRec.nonDict => none

/-- CPython `sorted(data, key=...)` first applies the key function to every
element, left to right; a missing `"day"` raises `KeyError` at that point. -/
def keyed : List RawRec → Except PipeErr (List (Nat × RawRec))
  | [] => Except.ok []
  | r :: rest =>
    match dayOf r with
    | none => Except.error PipeErr.keyError
    | some d =>
      match keyed rest with
      | Except.error e => Except.error e
      | Except.ok ks => Except.ok ((d, r) :: ks)

/-- `fetch_sleep_json` (source lines 47-69) with the external world as
parameters: `sample` is the content of the bundled offline file's `data`
array, `live` is what the Oura API would return for this request.  The first
component of the result records whether the network was contacted.  The live
branch returns the provider data sorted by `day`, oldest to newest (Python's
`sorted` is a stable sort; a stable sort by key is extensionally unique, so
`List.mergeSort` models it exactly). -/
def fetch_sleep_json (token : Option String) (sample live : List RawRec) :
    Except PipeErr (Bool × List RawRec) :=
  match token with
  | none => Except.ok (false, sample)
  | some t =>
    if t = "" ∨ startswith DUMMY t then Except.ok (false, sample)
    else
      match keyed live with
      | Except.error e => Except.error e
      | Except.ok ks =>
        Except.ok (true, (ks.mergeSort (fun a b => decide (a.1 ≤ b.1))).map Prod.snd)

/-- Observable dispatch actions of `send_qualtrics_survey`: either a dry-run
report of the would-be send, or a real POST to the provider. -/
inductive DispatchAction
  | dryEmail
  | drySms
  | postEmail
  | postSms
  deriving DecidableEq

/-- `send_qualtrics_survey` (source lines 102-153) reduced to its observable
dispatch behaviour: `api_token = qt.get("api_token", DUMMY)`; `dry` is forced
to `True` when the token starts with the placeholder; then the email payload
and the SMS payload are each either reported (dry) or POSTed.  Payload field
contents are configuration lookups with no decision logic and are not
modelled. -/
def send_qualtrics_survey (api_token : Option String) (dry : Bool) :
    List DispatchAction :=
  let tok := api_token.getD DUMMY
  let dry := if startswith DUMMY tok then true else dry
  (if dry then [DispatchAction.dryEmail] else [DispatchAction.postEmail]) ++
    (if dry then [DispatchAction.drySms] else [DispatchAction.postSms])

/-- One line of per-patient console reporting in `run_once` (source lines
168-172).  The source rounds values to 2 decimals for display only; the exact
values are logged here. -/
inductive LogItem
  | lastNight (h : ℚ)
  | prevNights (hs : List ℚ)
  | pctChange (p : ℚ)
  deriving DecidableEq

/-- The metrics duplicated in `run_once` lines 170-171:
`last, baseline = hours[-1], stats.mean(hours[:-1])` and the `pct_change`
formula.  `hours[-1]` on an empty list raises `IndexError`; `stats.mean` of an
empty sequence raises `StatisticsError`. -/
def pipeline_metrics (hours : List ℚ) : Except PipeErr (ℚ × ℚ × ℚ) :=
  if hours = [] then Except.error PipeErr.indexError
  else if hours.dropLast = [] then Except.error PipeErr.statisticsError
  else
    let last := lastOf hours
    let baseline := mean hours.dropLast
    Except.ok (last, baseline,
      if baseline ≠ 0 then |last - baseline| / baseline * 100 else 0)

/-- The reporting-and-evaluation part of the per-patient loop body (source
lines 168-174), producing the log items printed before any exception together
with the trigger decision.  Line 168 reads `hours[-1]` (IndexError on an
empty series, before anything is printed); line 169 prints the previous
nights; line 170 computes the baseline mean (StatisticsError when
`hours[:-1]` is empty); line 172 prints the percent change; line 174
evaluates the trigger (ValueError on fewer than 8 nights). -/
def report_and_evaluate (hours : List ℚ) (deviation_pct min_hours : ℚ) :
    List LogItem × Except PipeErr Bool :=
  if hours = [] then ([], Except.error PipeErr.indexError)
  else
    let last := lastOf hours
    let prev := hours.dropLast
    if prev = [] then
      ([LogItem.lastNight last, LogItem.prevNights prev],
        Except.error PipeErr.statisticsError)
    else
      let baseline := mean prev
      let pc := if baseline ≠ 0 then |last - baseline| / baseline * 100 else 0
      ([LogItem.lastNight last, LogItem.prevNights prev, LogItem.pctChange pc],
        trigger_decision hours deviation_pct min_hours)

/-- The external world of one run: the bundled sample dataset, the live
provider data per Oura token, and the configured Qualtrics api token. -/
structure Env where
  sample : List RawRec
  live : String → List RawRec
  qualtrics_api_token : Option String

/-- What one successfully processed patient contributes to the run's output:
the printed metrics and the dispatch actions taken (empty when not
triggered). -/
structure PatientOutcome where
  log : List LogItem
  actions : List DispatchAction
  deriving DecidableEq

/-- The body of the per-patient loop of `run_once` (source lines 165-178) for
one patient: fetch, normalize, report metrics, evaluate the trigger, dispatch
when triggered.  Any raised exception becomes `Except.error`. -/
def process_patient (env : Env) (dry_flag : Bool) (deviation min_hours : ℚ)
    (token : String) : Except PipeErr PatientOutcome :=
  match fetch_sleep_json (some token) env.sample (env.live token) with
  | Except.error e => Except.error e
  | Except.ok (_, recs) =>
    let hours := nightly_totals recs
    match report_and_evaluate hours deviation min_hours with
    | (_, Except.error e) => Except.error e
    | (log, Except.ok trig) =>
      Except.ok ⟨log,
        if trig then send_qualtrics_survey env.qualtrics_api_token dry_flag else []⟩

/-- `run_once` (source lines 160-178) over the configured patient-credential
pairs in insertion order.  The loop body has no `try`/`except`: the first
exception propagates out of `run_once`, so the result is the outcomes of the
patients processed before the failure, paired with the error (if any) that
aborted the run. -/
def run_once (env : Env) (dry_flag : Bool) (deviation min_hours : ℚ) :
    List (String × String) → List (String × PatientOutcome) × Option PipeErr
  | [] => ([], none)
  | (pid, tok) :: rest =>
    match process_patient env dry_flag deviation min_hours tok with
    | Except.error e => ([], some e)
    | Except.ok out =>
      let tail := run_once env dry_flag deviation min_hours rest
      ((pid, out) :: tail.1, tail.2)

/-- Seven qualifying provider records with ascending days, 25200 seconds
(7 hours) each: enough for metrics reporting but one night short for the
trigger rule. -/
def liveSeven : List RawRec :=
  [RawRec.dict (some 1) (some "long_sleep") (some 25200),
   RawRec.dict (some 2) (some "long_sleep") (some 25200),
   RawRec.dict (some 3) (some "long_sleep") (some 25200),
   RawRec.dict (some 4) (some "long_sleep") (some 25200),
   RawRec.dict (some 5) (some "long_sleep") (some 25200),
   RawRec.dict (some 6) (some "long_sleep") (some 25200),
   RawRec.dict (some 7) (some "long_sleep") (some 25200)]

/-- Eight qualifying provider records with ascending days, 25200 seconds
(7 hours) each: a full, non-triggering series. -/
def eightGood : List RawRec :=
  RawRec.dict (some 0) (some "long_sleep") (some 25200) :: liveSeven

/-- A concrete run environment: the bundled sample holds eight good records,
live data exists only for the token `"tokA"` (seven records), and no real
Qualtrics token is configured. -/
def envC2 : Env :=
  ⟨eightGood, fun t => if t = "tokA" then liveSeven else [], none⟩

theorem getLast?_eq_lastOf : ∀ (l : List ℚ), l ≠ [] → l.getLast? = some (lastOf l)
  | [x], _ => rfl
  | _ :: y :: xs, _ => by
    rw [List.getLast?_cons_cons]
    exact getLast?_eq_lastOf (y :: xs) (by simp)

theorem should_trigger_err_of_lt (hours : List ℚ) (dev minh : ℚ)
    (h : hours.length < 8) :
    should_trigger hours dev minh = Except.error PipeErr.insufficientData := by
  unfold should_trigger
  rw [if_pos h]

theorem should_trigger_ok_of_le (hours : List ℚ) (dev minh : ℚ)
    (h : 8 ≤ hours.length) :
    ∃ v, should_trigger hours dev minh = Except.ok v := by
  unfold should_trigger
  rw [if_neg (by omega)]
  exact ⟨_, rfl⟩

/-- C3: the trigger evaluator fails with the insufficient-data error exactly
when the series has fewer than 8 entries, and in that case returns the error
alone; for every series of length 8 or more it returns a value without
raising. -/
theorem C3_insufficient_data_boundary (hours : List ℚ) (dev minh : ℚ) :
    (hours.length < 8 →
      should_trigger hours dev minh = Except.error PipeErr.insufficientData) ∧
    (8 ≤ hours.length → ∃ v, should_trigger hours dev minh = Except.ok v) :=
  ⟨should_trigger_err_of_lt hours dev minh, should_trigger_ok_of_le hours dev minh⟩

theorem C3_insufficient_data_boundary_witness :
    should_trigger [7, 7, 7, 7, 7] 25 4 = Except.error PipeErr.insufficientData :=
  (C3_insufficient_data_boundary [7, 7, 7, 7, 7] 25 4).1 (by norm_num)

/-- C8: for a series of length 8 whose last value is strictly below the
minimum-hours threshold, the decision is true regardless of the baseline, the
percent change and the deviation threshold. -/
theorem C8_absolute_floor (hours : List ℚ) (dev minh : ℚ)
    (hlen : hours.length = 8) (hlast : lastOf hours < minh) :
    trigger_decision hours dev minh = Except.ok true := by
  unfold trigger_decision should_trigger
  rw [if_neg (by omega)]
  simp [Except.map, pyOr, truthy, hlast]

theorem C8_absolute_floor_witness :
    trigger_decision [7, 7, 7, 7, 7, 7, 7, 3.5] 25 4 = Except.ok true :=
  C8_absolute_floor [7, 7, 7, 7, 7, 7, 7, 3.5] 25 4 (by norm_num)
    (by simp [lastOf]; norm_num)

/-- C1 (counterexample): with deviation threshold −1 and a flat series, the
last value is not below the minimum and the percent change (0) is strictly
greater than the threshold, so the claimed plain-OR semantics demands a true
decision; the code's decision is false because the expression
`pct_change > deviation_pct and pct_change` evaluates to the falsy number 0. -/
theorem C1_plain_or_counterexample :
    trigger_decision [7, 7, 7, 7, 7, 7, 7, 7] (-1) 4 = Except.ok false ∧
    (lastOf [7, 7, 7, 7, 7, 7, 7, 7] < 4 ∨ pctOf [7, 7, 7, 7, 7, 7, 7, 7] > -1) := by
  have hlast : lastOf [(7:ℚ), 7, 7, 7, 7, 7, 7, 7] = 7 := by simp [lastOf]
  have hpct : pctOf [(7:ℚ), 7, 7, 7, 7, 7, 7, 7] = 0 := by
    simp [pctOf, baselineOf, mean, pct_change, List.dropLast, lastOf]
    norm_num
  constructor
  · unfold trigger_decision should_trigger
    rw [if_neg (by norm_num)]
    simp only [Except.map, hlast, hpct]
    rw [decide_eq_false (show ¬ ((7:ℚ) < 4) by norm_num),
      decide_eq_true (show ((0:ℚ) > -1) by norm_num)]
    simp [pyOr, pyAnd, truthy]
  · rw [hpct]
    right
    norm_num

/-- C1 (amended): for a series of length 8 and a nonnegative deviation
threshold, the decision equals the plain boolean OR of the two conditions.
(For a negative deviation threshold the second disjunct additionally requires
the percent change to be nonzero.) -/
theorem C1_trigger_plain_or (hours : List ℚ) (dev minh : ℚ)
    (hlen : hours.length = 8) (hdev : 0 ≤ dev) :
    trigger_decision hours dev minh =
      Except.ok (decide (lastOf hours < minh) || decide (pctOf hours > dev)) := by
  unfold trigger_decision should_trigger
  rw [if_neg (by omega)]
  simp only [Except.map]
  congr 1
  by_cases h1 : lastOf hours < minh
  · simp [pyOr, pyAnd, truthy, h1]
  · by_cases h2 : pctOf hours > dev
    · have hne : pctOf hours ≠ 0 := (lt_of_le_of_lt hdev h2).ne'
      simp [pyOr, pyAnd, truthy, h1, h2, hne]
    · simp [pyOr, pyAnd, truthy, h1, h2]

theorem C1_trigger_plain_or_witness :
    trigger_decision [7, 7, 7, 7, 7, 7, 7, 9.5] 25 4 = Except.ok true := by
  have h := C1_trigger_plain_or [7, 7, 7, 7, 7, 7, 7, 9.5] 25 4 (by norm_num)
    (by norm_num)
  rw [h]
  have hlast : lastOf [(7:ℚ), 7, 7, 7, 7, 7, 7, 9.5] = 9.5 := by simp [lastOf]
  have hpct : pctOf [(7:ℚ), 7, 7, 7, 7, 7, 7, 9.5] = 250 / 7 := by
    simp [pctOf, baselineOf, mean, pct_change, List.dropLast, lastOf]
    norm_num [abs_of_nonneg]
  rw [hlast, hpct]
  norm_num

/-- C6 (counterexample): for a series whose 7-night baseline mean is negative
(−7), the claim predicts a percent change of 0, but the code applies the
formula (the guard is `baseline ≠ 0`, not `baseline > 0`) and yields −100. -/
theorem C6_negative_baseline_counterexample :
    ¬ (0 < baselineOf [-7, -7, -7, -7, -7, -7, -7, 0]) ∧
    pctOf [-7, -7, -7, -7, -7, -7, -7, 0] = -100 := by
  have hb : baselineOf [(-7:ℚ), -7, -7, -7, -7, -7, -7, 0] = -7 := by
    simp [baselineOf, mean, List.dropLast]
    norm_num
  have hl : lastOf [(-7:ℚ), -7, -7, -7, -7, -7, -7, 0] = 0 := by simp [lastOf]
  constructor
  · rw [hb]
    norm_num
  · rw [pctOf, hb, hl, pct_change]
    norm_num

/-- C6 (amended): for a series of length 8 the evaluator completes without
raising, the percent change is 0 when the baseline mean is exactly 0, and it
equals the formula when the baseline mean is nonzero (the code's guard is
`baseline ≠ 0`; for a negative baseline the formula is applied and the result
can be negative). -/
theorem C6_no_division_by_zero (hours : List ℚ) (dev minh : ℚ)
    (hlen : hours.length = 8) :
    (baselineOf hours = 0 → pctOf hours = 0) ∧
    (baselineOf hours ≠ 0 →
      pctOf hours = |lastOf hours - baselineOf hours| / baselineOf hours * 100) ∧
    (∃ v, should_trigger hours dev minh = Except.ok v) := by
  refine ⟨?_, ?_, should_trigger_ok_of_le hours dev minh (by omega)⟩
  · intro h
    simp [pctOf, pct_change, h]
  · intro h
    simp [pctOf, pct_change, h]

theorem C6_no_division_by_zero_witness :
    pctOf [0, 0, 0, 0, 0, 0, 0, 5] = 0 :=
  (C6_no_division_by_zero [0, 0, 0, 0, 0, 0, 0, 5] 25 4 (by norm_num)).1
    (by simp [baselineOf, mean, List.dropLast])

/-- C10: for a series of length 8 the metrics that `run_once` computes
independently on lines 170-171 coincide with the last-night value, the
baseline mean and the percent change computed inside `should_trigger` on
lines 90-91. -/
theorem C10_duplicated_metrics_agree (hours : List ℚ) (hlen : hours.length = 8) :
    pipeline_metrics hours = Except.ok (lastOf hours, baselineOf hours, pctOf hours) := by
  have hne : hours ≠ [] := by
    intro h
    rw [h] at hlen
    simp at hlen
  have hd : hours.dropLast ≠ [] := by
    have : hours.dropLast.length = 7 := by rw [List.length_dropLast, hlen]
    intro h
    rw [h] at this
    simp at this
  unfold pipeline_metrics
  rw [if_neg hne, if_neg hd]
  rfl

theorem C10_duplicated_metrics_agree_witness :
    pipeline_metrics [7, 7, 7, 7, 7, 7, 7, 3.5] =
      Except.ok (lastOf [7, 7, 7, 7, 7, 7, 7, 3.5],
        baselineOf [7, 7, 7, 7, 7, 7, 7, 3.5], pctOf [7, 7, 7, 7, 7, 7, 7, 3.5]) :=
  C10_duplicated_metrics_agree [7, 7, 7, 7, 7, 7, 7, 3.5] (by norm_num)

/-- C9 (counterexample): for the length-1 series `[5]` the pipeline reports
the last-night value and the (empty) previous nights, then fails computing
the mean of an empty sequence — a statistics error, not the insufficient-data
error, and the percent-change metric is never reported, contradicting the
claim that for series of length 1 to 7 the metrics are computed and reported
before the insufficient-data failure. -/
theorem C9_length_one_counterexample :
    report_and_evaluate [5] 25 4 =
      ([LogItem.lastNight 5, LogItem.prevNights []],
        Except.error PipeErr.statisticsError) ∧
    PipeErr.statisticsError ≠ PipeErr.insufficientData := by
  constructor
  · rfl
  · decide

/-- C9 (amended): on an empty series the pipeline fails with the
out-of-bounds indexing error before reporting anything (so the
insufficient-data error is never produced); on a series of length exactly 1
it reports the last night and the empty previous-nights list and then fails
with the empty-mean statistics error; only for lengths 2 to 7 are all three
metrics reported before the insufficient-data failure. -/
theorem C9_short_series_failures (hours : List ℚ) (dev minh : ℚ) :
    (hours = [] →
      report_and_evaluate hours dev minh = ([], Except.error PipeErr.indexError)) ∧
    (hours.length = 1 →
      report_and_evaluate hours dev minh =
        ([LogItem.lastNight (lastOf hours), LogItem.prevNights []],
          Except.error PipeErr.statisticsError)) ∧
    (2 ≤ hours.length → hours.length ≤ 7 →
      report_and_evaluate hours dev minh =
        ([LogItem.lastNight (lastOf hours), LogItem.prevNights hours.dropLast,
          LogItem.pctChange (pctOf hours)],
          Except.error PipeErr.insufficientData)) := by
  refine ⟨?_, ?_, ?_⟩
  · intro h
    subst h
    rfl
  · intro h
    obtain ⟨a, rfl⟩ := List.length_eq_one.mp h
    rfl
  · intro h2 h7
    have hne : hours ≠ [] := by
      intro h
      rw [h] at h2
      simp at h2
    have hd : hours.dropLast ≠ [] := by
      have : hours.dropLast.length = hours.length - 1 := List.length_dropLast hours
      intro h
      rw [h] at this
      simp at this
      omega
    unfold report_and_evaluate
    rw [if_neg hne]
    simp only []
    rw [if_neg hd, trigger_decision, should_trigger_err_of_lt hours dev minh (by omega)]
    rfl

theorem C9_short_series_failures_witness :
    report_and_evaluate [7, 7, 7, 7, 7, 7, 7] 25 4 =
      ([LogItem.lastNight (lastOf [7, 7, 7, 7, 7, 7, 7]),
        LogItem.prevNights (List.dropLast [7, 7, 7, 7, 7, 7, 7]),
        LogItem.pctChange (pctOf [7, 7, 7, 7, 7, 7, 7])],
        Except.error PipeErr.insufficientData) :=
  (C9_short_series_failures [7, 7, 7, 7, 7, 7, 7] 25 4).2.2 (by norm_num) (by norm_num)

theorem filter_map_eq_keptHours (records : List RawRec) :
    (records.filter isQualifying).map hoursOf = keptHours records := by
  induction records with
  | nil => rfl
  | cons r rest ih =>
    unfold keptHours at *
    rw [List.filterMap_cons, List.filter_cons]
    cases r with
    | nonDict => simpa [isQualifying] using ih
    | dict day ty dur =>
      cases ty with
      | none => simpa [isQualifying] using ih
      | some t =>
        cases dur with
        | none => simpa [isQualifying] using ih
        | some d =>
          by_cases ht : t = "long_sleep"
          · subst ht
            simpa [isQualifying, hoursOf] using ih
          · simpa [isQualifying, ht] using ih

theorem length_lastN (n : Nat) (l : List α) : (lastN n l).length = min l.length n := by
  simp only [lastN, List.length_drop]
  omega

theorem lastN_of_le (n : Nat) (l : List α) (h : l.length ≤ n) : lastN n l = l := by
  unfold lastN
  rw [Nat.sub_eq_zero_of_le h, List.drop_zero]

/-- C7: the normalizer returns exactly the last 8 (or all, when fewer than 8
qualify, with no padding) of the values obtained by keeping, in input order,
the records that are mappings with `type == "long_sleep"` and a present
`total_sleep_duration`, each divided by 3600; non-qualifying or malformed
records are excluded without error. -/
theorem C7_normalizer_keeps_last_eight (records : List RawRec) :
    nightly_totals records = lastN 8 (keptHours records) ∧
    (nightly_totals records).length = min (keptHours records).length 8 ∧
    ((keptHours records).length ≤ 8 → nightly_totals records = keptHours records) := by
  have h := filter_map_eq_keptHours records
  refine ⟨?_, ?_, ?_⟩
  · rw [nightly_totals, h]
  · rw [nightly_totals, h, length_lastN]
  · intro hle
    rw [nightly_totals, h, lastN_of_le _ _ hle]

theorem C7_normalizer_keeps_last_eight_witness :
    nightly_totals
        [RawRec.nonDict,
         RawRec.dict (some 1) (some "long_sleep") (some 25200),
         RawRec.dict (some 2) (some "nap") (some 100),
         RawRec.dict (some 3) none (some 100),
         RawRec.dict (some 4) (some "long_sleep") none] =
      keptHours
        [RawRec.nonDict,
         RawRec.dict (some 1) (some "long_sleep") (some 25200),
         RawRec.dict (some 2) (some "nap") (some 100),
         RawRec.dict (some 3) none (some 100),
         RawRec.dict (some 4) (some "long_sleep") none] :=
  (C7_normalizer_keeps_last_eight _).2.2 (by decide)

/-- C4: when the configured Qualtrics api token is the placeholder, or absent
(defaulting to the placeholder), the dispatcher runs in dry-run mode whatever
the caller requested: both payloads are only reported, none is POSTed. -/
theorem C4_placeholder_forces_dry (api_token : Option String) (dry : Bool)
    (h : api_token = none ∨ api_token = some DUMMY) :
    send_qualtrics_survey api_token dry =
      [DispatchAction.dryEmail, DispatchAction.drySms] := by
  rcases h with h | h <;> subst h <;> cases dry <;> rfl

theorem C4_placeholder_forces_dry_witness :
    send_qualtrics_survey none false =
      [DispatchAction.dryEmail, DispatchAction.drySms] :=
  C4_placeholder_forces_dry none false (Or.inl rfl)

theorem keyed_map_snd (live : List RawRec) :
    ∀ ks, keyed live = Except.ok ks → ks.map Prod.snd = live := by
  induction live with
  | nil =>
    intro ks h
    unfold keyed at h
    cases h
    rfl
  | cons r rest ih =>
    intro ks h
    unfold keyed at h
    cases hd : dayOf r with
    | none =>
      rw [hd] at h
      cases h
    | some d =>
      rw [hd] at h
      cases hk : keyed rest with
      | error e =>
        rw [hk] at h
        cases h
      | ok ks2 =>
        rw [hk] at h
        cases h
        simp only [List.map_cons]
        rw [ih ks2 hk]

theorem keyed_day (live : List RawRec) :
    ∀ ks, keyed live = Except.ok ks → ∀ p ∈ ks, dayOf p.2 = some p.1 := by
  induction live with
  | nil =>
    intro ks h p hp
    unfold keyed at h
    cases h
    cases hp
  | cons r rest ih =>
    intro ks h p hp
    unfold keyed at h
    cases hd : dayOf r with
    | none =>
      rw [hd] at h
      cases h
    | some d =>
      rw [hd] at h
      cases hk : keyed rest with
      | error e =>
        rw [hk] at h
        cases h
      | ok ks2 =>
        rw [hk] at h
        cases h
        cases hp with
        | head => exact hd
        | tail _ hp2 => exact ih ks2 hk p hp2

/-- C5: with an absent, empty or placeholder credential the fetch returns the
bundled sample data without contacting the provider; with a real credential
the provider is contacted and whatever records it returns are handed back
sorted chronologically (oldest to newest) by day. -/
theorem C5_offline_fallback_or_sorted (token : Option String)
    (sample live : List RawRec) :
    ((token = none ∨ token = some "" ∨
        (∃ t, token = some t ∧ startswith DUMMY t = true)) →
      fetch_sleep_json token sample live = Except.ok (false, sample)) ∧
    (∀ t, token = some t → ¬ t = "" → startswith DUMMY t = false →
      ∀ nc out, fetch_sleep_json token sample live = Except.ok (nc, out) →
        nc = true ∧ out.Perm live ∧
          List.Pairwise (fun a b => (dayOf a).getD 0 ≤ (dayOf b).getD 0) out) := by
  constructor
  · intro h
    rcases h with h | h | ⟨t, h, hs⟩ <;> subst h
    · rfl
    · simp only [fetch_sleep_json]
      rw [if_pos (Or.inl trivial)]
    · simp only [fetch_sleep_json]
      rw [if_pos (Or.inr hs)]
  · intro t ht h1 h2 nc out hf
    subst ht
    simp only [fetch_sleep_json] at hf
    rw [if_neg (by
      rintro (h | h)
      · exact h1 h
      · rw [h2] at h
        cases h)] at hf
    cases hk : keyed live with
    | error e =>
      rw [hk] at hf
      cases hf
    | ok ks =>
      rw [hk] at hf
      injection hf with hf2
      injection hf2 with hnc hout
      subst hnc
      subst hout
      refine ⟨rfl, ?_, ?_⟩
      · have hperm := (List.mergeSort_perm ks (fun a b => decide (a.1 ≤ b.1))).map Prod.snd
        rwa [keyed_map_snd live ks hk] at hperm
      · have htrans : ∀ a b c : Nat × RawRec,
            decide (a.1 ≤ b.1) = true → decide (b.1 ≤ c.1) = true →
              decide (a.1 ≤ c.1) = true := by
          intro a b c hab hbc
          simp only [decide_eq_true_eq] at *
          omega
        have htotal : ∀ a b : Nat × RawRec,
            (decide (a.1 ≤ b.1) || decide (b.1 ≤ a.1)) = true := by
          intro a b
          simp only [Bool.or_eq_true, decide_eq_true_eq]
          omega
        have hsorted := List.sorted_mergeSort htrans htotal ks
        refine List.pairwise_map.mpr ?_
        refine hsorted.imp_of_mem ?_
        intro a b ha hb hab
        have hda := keyed_day live ks hk a
          ((List.mergeSort_perm ks (fun a b => decide (a.1 ≤ b.1))).mem_iff.mp ha)
        have hdb := keyed_day live ks hk b
          ((List.mergeSort_perm ks (fun a b => decide (a.1 ≤ b.1))).mem_iff.mp hb)
        rw [hda, hdb]
        simpa using hab

theorem C5_offline_fallback_or_sorted_witness :
    fetch_sleep_json (some "xxx") eightGood liveSeven =
      Except.ok (false, eightGood) :=
  (C5_offline_fallback_or_sorted (some "xxx") eightGood liveSeven).1
    (Or.inr (Or.inr ⟨"xxx", rfl, by decide⟩))

theorem fetch_tokA :
    fetch_sleep_json (some "tokA") eightGood liveSeven =
      Except.ok (true, liveSeven) := by
  simp only [fetch_sleep_json]
  rw [if_neg (by decide)]
  have hk : keyed liveSeven = Except.ok
      [(1, RawRec.dict (some 1) (some "long_sleep") (some 25200)),
       (2, RawRec.dict (some 2) (some "long_sleep") (some 25200)),
       (3, RawRec.dict (some 3) (some "long_sleep") (some 25200)),
       (4, RawRec.dict (some 4) (some "long_sleep") (some 25200)),
       (5, RawRec.dict (some 5) (some "long_sleep") (some 25200)),
       (6, RawRec.dict (some 6) (some "long_sleep") (some 25200)),
       (7, RawRec.dict (some 7) (some "long_sleep") (some 25200))] := rfl
  simp only [hk]
  rw [List.mergeSort_of_sorted (by decide)]
  rfl

theorem report_snd_short (hours : List ℚ) (dev minh : ℚ)
    (hne : hours ≠ []) (hd : hours.dropLast ≠ []) (h8 : hours.length < 8) :
    (report_and_evaluate hours dev minh).2 = Except.error PipeErr.insufficientData := by
  unfold report_and_evaluate
  rw [if_neg hne]
  simp only []
  rw [if_neg hd]
  simp only [trigger_decision, should_trigger_err_of_lt hours dev minh h8]
  rfl

theorem process_tokA_err :
    process_patient envC2 true 25 4 "tokA" = Except.error PipeErr.insufficientData := by
  have hf : fetch_sleep_json (some "tokA") envC2.sample (envC2.live "tokA") =
      Except.ok (true, liveSeven) := by
    show fetch_sleep_json (some "tokA") eightGood
      (if "tokA" = "tokA" then liveSeven else []) = _
    rw [if_pos rfl]
    exact fetch_tokA
  unfold process_patient
  simp only [hf]
  rcases hre : report_and_evaluate (nightly_totals liveSeven) 25 4 with ⟨lg, r⟩
  have hr2 : r = Except.error PipeErr.insufficientData := by
    have hsnd := report_snd_short (nightly_totals liveSeven) 25 4
      (by decide) (by decide) (by decide)
    rw [hre] at hsnd
    exact hsnd
  subst hr2
  simp only [hre]

theorem trigger_flat8 :
    trigger_decision [7, 7, 7, 7, 7, 7, 7, 7] 25 4 = Except.ok false := by
  have hl : lastOf [(7:ℚ), 7, 7, 7, 7, 7, 7, 7] = 7 := by simp [lastOf]
  have hpct : pctOf [(7:ℚ), 7, 7, 7, 7, 7, 7, 7] = 0 := by
    simp [pctOf, baselineOf, mean, pct_change, List.dropLast, lastOf]
    norm_num
  unfold trigger_decision should_trigger
  rw [if_neg (by norm_num)]
  simp only [Except.map, hl, hpct]
  rw [decide_eq_false (show ¬ ((7:ℚ) < 4) by norm_num),
    decide_eq_false (show ¬ ((0:ℚ) > 25) by norm_num)]
  simp [pyOr, pyAnd, truthy]

theorem report_flat8 :
    report_and_evaluate [7, 7, 7, 7, 7, 7, 7, 7] 25 4 =
      ([LogItem.lastNight 7, LogItem.prevNights [7, 7, 7, 7, 7, 7, 7],
        LogItem.pctChange 0], Except.ok false) := by
  have hl : lastOf [(7:ℚ), 7, 7, 7, 7, 7, 7, 7] = 7 := by simp [lastOf]
  have hb : mean (List.dropLast [(7:ℚ), 7, 7, 7, 7, 7, 7, 7]) = 7 := by
    simp [mean, List.dropLast]
    norm_num
  unfold report_and_evaluate
  rw [if_neg (by simp)]
  simp only [trigger_flat8, hl, hb]
  norm_num [List.dropLast]
  simp

theorem process_dummy_ok :
    process_patient envC2 true 25 4 "xxx" =
      Except.ok ⟨[LogItem.lastNight 7, LogItem.prevNights [7, 7, 7, 7, 7, 7, 7],
        LogItem.pctChange 0], []⟩ := by
  have hf : fetch_sleep_json (some "xxx") envC2.sample (envC2.live "xxx") =
      Except.ok (false, eightGood) := by
    simp only [fetch_sleep_json]
    rw [if_pos (Or.inr (by decide))]
    rfl
  have hh : nightly_totals eightGood = [7, 7, 7, 7, 7, 7, 7, 7] := by
    have h1 : nightly_totals eightGood =
        [25200 / 3600, 25200 / 3600, 25200 / 3600, 25200 / 3600,
         25200 / 3600, 25200 / 3600, 25200 / 3600, 25200 / 3600] := rfl
    rw [h1]
    norm_num
  unfold process_patient
  simp only [hf, hh, report_flat8]
  rfl

/-- C2 (counterexample): two configured patients; the first patient's data has
only 7 qualifying nights, so its processing raises the insufficient-data
error; `run_once` then returns no per-patient outcome at all — the first
patient's error is not recorded as an outcome and the second patient is never
processed, although processing the second patient alone succeeds. -/
theorem C2_no_isolation_counterexample :
    run_once envC2 true 25 4 [("p1", "tokA"), ("p2", "xxx")] =
      ([], some PipeErr.insufficientData) ∧
    process_patient envC2 true 25 4 "xxx" =
      Except.ok ⟨[LogItem.lastNight 7, LogItem.prevNights [7, 7, 7, 7, 7, 7, 7],
        LogItem.pctChange 0], []⟩ := by
  constructor
  · simp only [run_once, process_tokA_err]
  · exact process_dummy_ok

/-- C2 (amended): `run_once` has no per-patient exception handling: when the
processing of one patient fails, the error propagates and aborts the whole
run — the failing patient's error is not recorded as a per-patient outcome
and no subsequent patient is processed. -/
theorem C2_error_aborts_run (env : Env) (dry : Bool) (dev minh : ℚ)
    (pid tok : String) (rest : List (String × String)) (e : PipeErr)
    (h : process_patient env dry dev minh tok = Except.error e) :
    run_once env dry dev minh ((pid, tok) :: rest) = ([], some e) := by
  simp only [run_once, h]

theorem C2_error_aborts_run_witness :
    run_once envC2 true 25 4 [("p1", "tokA"), ("p2", "xxx")] =
      ([], some PipeErr.insufficientData) :=
  C2_error_aborts_run envC2 true 25 4 "p1" "tokA" [("p2", "xxx")]
    PipeErr.insufficientData process_tokA_err

end SleepEMA
